import Mathlib

/-!
A shallow embedding of `drone_telemetry_server.js` (auto-start stream
notification system).  Pure data and control flow of the server are
translated into executable Lean definitions; network I/O is modelled by
passing the outcome of each remote call as an explicit parameter
(`Option`-valued: `none` = the call failed / threw, `some` = the decoded
successful response).  JavaScript truthiness of strings is modelled
explicitly where the source relies on it (`'' || dflt`, `if (!cameraId)`).
-/

/-- Configuration constants of the server (lines 16-20 of the source). -/
def MAX_RETRY_ATTEMPTS : Nat := 10

/-- `INITIAL_RETRY_DELAY_MS = 2000` (line 18), as a rational for the jitter arithmetic. -/
def INITIAL_RETRY_DELAY_MS : Rat := 2000

/-- `MAX_RETRY_DELAY_MS = 30000` (line 19). -/
def MAX_RETRY_DELAY_MS : Rat := 30000

/-- `INACTIVITY_TIMEOUT_MS = 25000` (line 127). -/
def INACTIVITY_TIMEOUT_MS : Nat := 25000

/-- `CHECK_INTERVAL_MS = 10000` (line 129): the watchdog sweep period. -/
def CHECK_INTERVAL_MS : Nat := 10000

/-- The deterministic core of `calculateRetryDelay` (lines 29-33):
`Math.min(INITIAL_RETRY_DELAY_MS * Math.pow(2, attempt), MAX_RETRY_DELAY_MS)`. -/
def exponentialDelayQ (attempt : Nat) : Rat :=
  min (INITIAL_RETRY_DELAY_MS * 2 ^ attempt) MAX_RETRY_DELAY_MS

/-- `calculateRetryDelay(attempt)` (lines 29-37).  `rand` stands for the value
of `Math.random()` (a number in `[0,1)`); the jitter is
`exponentialDelay * 0.2 * (rand - 0.5)` and the result is
`Math.floor(exponentialDelay + jitter)`. -/
def calculateRetryDelay (attempt : Nat) (rand : Rat) : Int :=
  Int.floor (exponentialDelayQ attempt + exponentialDelayQ attempt * (2 / 10) * (rand - 1 / 2))

/-- One record of `response.data.data.drones` as consumed by
`loadDronesFromAPI` (lines 50-62).  Optional fields model the
`?.`-accesses; the defaults applied by `||` are in `transformDrone`. -/
structure DroneRecord where
  deviceSerialNumber : String
  deviceName : String
  metadataAlias : Option String
  credUserName : Option String
  credPassword : Option String
  credPort : Option String
  cameras : Option (List String)
deriving DecidableEq

/-- The transformed per-drone configuration this server keeps in
`dronesConfig` (lines 54-62). -/
structure Drone where
  sn : String
  name : String
  aliasName : String
  userName : String
  password : String
  port : String
  cameras : List String
deriving DecidableEq

/-- JavaScript `x || dflt` for an optional string: a missing value and the
empty string (falsy) both yield the default. -/
def fromFalsy (o : Option String) (dflt : String) : String :=
  match o with
  | some s => if s = "" then dflt else s
  | none => dflt

/-- The field-by-field transformation applied to each database record
(lines 54-62 and, identically, lines 236-244). -/
def transformDrone (r : DroneRecord) : Drone :=
  { sn := r.deviceSerialNumber
    name := r.deviceName
    aliasName := fromFalsy r.metadataAlias r.deviceName
    userName := fromFalsy r.credUserName ""
    password := fromFalsy r.credPassword ""
    port := fromFalsy r.credPort "8554"
    cameras := r.cameras.getD [] }

/-- The module-level registry state of the server:
`dronesConfig`, `droneSNs`, `databaseConnected`, `retryCount` (lines 23-26). -/
structure RegistryState where
  dronesConfig : List Drone
  droneSNs : List String
  databaseConnected : Bool
  retryCount : Nat
deriving DecidableEq

/-- The assignments performed by a successful `loadDronesFromAPI` attempt
(lines 54-68): the cached set is replaced wholesale. -/
def applySuccess (st : RegistryState) (drones : List DroneRecord) : RegistryState :=
  { st with
    dronesConfig := drones.map transformDrone
    droneSNs := (drones.map transformDrone).map (fun d => d.sn)
    databaseConnected := true
    retryCount := 0 }

/-- The retry recursion of `loadDronesFromAPI` (lines 44-84).
`resp k` is the outcome of the HTTP fetch made by the attempt whose 0-based
index is `k` (`none` = the request or the parse/transform threw, handled by
the `catch`; `some ds` = the decoded drone list).  `remaining` is structural
fuel encoding the guard `attempt < MAX_RETRY_ATTEMPTS - 1`
(`remaining = MAX_RETRY_ATTEMPTS - 1 - attempt` at every call). -/
def loadAux (resp : Nat → Option (List DroneRecord)) :
    Nat → Nat → RegistryState → RegistryState × Bool
  | 0, attempt, st =>
    match resp attempt with
    | some drones => (applySuccess st drones, true)
    | none => ({ st with databaseConnected := false, retryCount := attempt + 1 }, false)
  | r + 1, attempt, st =>
    match resp attempt with
    | some drones => (applySuccess st drones, true)
    | none => loadAux resp r (attempt + 1) st

/-- `loadDronesFromAPI()` as invoked by the server (attempt 0, ceiling
`MAX_RETRY_ATTEMPTS`).  Returns the new registry state and the boolean the
function returns to its caller; it never throws (every failure is caught). -/
def loadDronesFromAPI (resp : Nat → Option (List DroneRecord)) (st : RegistryState) :
    RegistryState × Bool :=
  loadAux resp (MAX_RETRY_ATTEMPTS - 1) 0 st

/-- Result of one tick of the reconnection supervisor. -/
structure TickResult where
  registry : RegistryState
  loadAttempted : Bool
  succeeded : Bool
deriving DecidableEq

/-- One tick of the periodic database-connection check (lines 151-164):
if `databaseConnected` is false it re-runs `loadDronesFromAPI`
(the subscribe-on-success step only touches MQTT subscriptions). -/
def supervisorTick (resp : Nat → Option (List DroneRecord)) (st : RegistryState) : TickResult :=
  if st.databaseConnected then
    { registry := st, loadAttempted := false, succeeded := false }
  else
    { registry := (loadDronesFromAPI resp st).1
      loadAttempted := true
      succeeded := (loadDronesFromAPI resp st).2 }

/-- The whole mutable server state relevant to the lifecycle claims:
`dronesConfig`/`droneSNs`/`databaseConnected` (registry), the
`startedStreams` set (line 121), the `droneLastMessageTime` map (line 124)
and the `cachedToken` (line 117).  `tokenExpiry` (line 118) is a separate
module constant below because the program never assigns it. -/
structure ServerState where
  registry : RegistryState
  startedStreams : List String
  droneLastMessageTime : List (String × Nat)
  cachedToken : Option String
deriving DecidableEq

/-- JavaScript `Map.get`, on an association list with unique keys. -/
def mapGet : List (String × Nat) → String → Option Nat
  | [], _ => none
  | e :: rest, k => if e.1 = k then some e.2 else mapGet rest k

/-- JavaScript `Map.set`: replace the entry in place if the key exists,
append otherwise. -/
def mapSet : List (String × Nat) → String → Nat → List (String × Nat)
  | [], k, v => [(k, v)]
  | e :: rest, k, v => if e.1 = k then (k, v) :: rest else e :: mapSet rest k v

/-- JavaScript `Set.add`. -/
def setAdd (l : List String) (x : String) : List String :=
  if x ∈ l then l else l ++ [x]

/-- `getDroneFirstCamera` (lines 87-90):
`dronesConfig.find(d => d.sn === droneSN)?.cameras?.[0] || null`.
A missing drone, an empty camera list, and an empty-string first camera
(falsy) all yield `null`. -/
def getDroneFirstCamera (dronesConfig : List Drone) (droneSN : String) : Option String :=
  match dronesConfig.find? (fun d => d.sn == droneSN) with
  | some d =>
    match d.cameras.head? with
    | some c => if c = "" then none else some c
    | none => none
  | none => none

/-- The `data` section of a decoded telemetry payload.  `missing` covers
every payload for which `!droneData.data || typeof droneData.data !== 'object'`
holds (absent, null, or a non-object value); `obj present` is an object
whose truthy keys are `present` (so `droneData.data[cam]` is truthy
iff `cam ∈ present`). -/
inductive DataField where
  | missing
  | obj (present : List String)
deriving DecidableEq

/-- What one run of the MQTT message handler produced:
the new state, whether `startStream(sn)` was invoked (line 411), and the
`updateDroneStreamStatus` PATCH calls issued directly by the handler
(line 421). -/
structure HandlerResult where
  state : ServerState
  invokedStart : Bool
  statusUpdates : List (String × Bool × String)
deriving DecidableEq

/-- The camera-offline branch of the handler (lines 414-423): if a stream
was started for `sn`, remove it from `startedStreams` and report
`streamIsOn=false` with an empty URL; otherwise do nothing. -/
def stopBranch (st : ServerState) (sn : String) : HandlerResult :=
  if sn ∈ st.startedStreams then
    { state := { st with startedStreams := st.startedStreams.erase sn }
      invokedStart := false
      statusUpdates := [(sn, false, "")] }
  else
    { state := st, invokedStart := false, statusUpdates := [] }

/-- The MQTT message handler (lines 393-432) for a successfully parsed
payload: update `droneLastMessageTime` (line 399; the socket broadcast of
line 402 is outside this core), then branch on the `data` section
(lines 404-424).  A missing/non-object `data` only logs.  Otherwise, if the
first configured camera is truthy-present, invoke `startStream` unless the
stream is already marked started; else take the stop branch. -/
def handleMessage (st : ServerState) (sn : String) (now : Nat) (d : DataField) : HandlerResult :=
  match d with
  | .missing =>
    { state := { st with droneLastMessageTime := mapSet st.droneLastMessageTime sn now }
      invokedStart := false
      statusUpdates := [] }
  | .obj present =>
    match getDroneFirstCamera st.registry.dronesConfig sn with
    | some cam =>
      if cam ∈ present then
        if sn ∈ st.startedStreams then
          { state := { st with droneLastMessageTime := mapSet st.droneLastMessageTime sn now }
            invokedStart := false
            statusUpdates := [] }
        else
          { state := { st with droneLastMessageTime := mapSet st.droneLastMessageTime sn now }
            invokedStart := true
            statusUpdates := [] }
      else
        stopBranch { st with droneLastMessageTime := mapSet st.droneLastMessageTime sn now } sn
    | none =>
      stopBranch { st with droneLastMessageTime := mapSet st.droneLastMessageTime sn now } sn

/-- `true` iff a decoded message counts as "first camera absent" evidence
for `sn`: a well-formed object in which the first configured camera is not
truthy-present (including when no first camera is configured).  A missing
`data` section is NOT absence evidence (lines 404-405 skip it). -/
def indicatesAbsence (cfg : List Drone) (sn : String) : DataField → Bool
  | .missing => false
  | .obj present =>
    match getDroneFirstCamera cfg sn with
    | some cam => ! decide (cam ∈ present)
    | none => true

/-- Run a sequence of telemetry messages for one device through the
handler, accumulating whether any `startStream` invocation and which
status updates were produced. -/
def runMessages (sn : String) (st : ServerState) :
    List (Nat × DataField) → ServerState × Bool × List (String × Bool × String)
  | [] => (st, false, [])
  | (now, d) :: rest =>
    let r := handleMessage st sn now d
    let rest2 := runMessages sn r.state rest
    (rest2.1, r.invokedStart || rest2.2.1, r.statusUpdates ++ rest2.2.2)

/-- The module-level `tokenExpiry` (line 118): initialized to `null` and —
verifiably, by inspection of every statement of the file — never assigned
afterwards, so it is a constant of the embedding. -/
def tokenExpiry : Option Nat := none

/-- JavaScript truthiness of a possibly-null string. -/
def strTruthy (s : Option String) : Bool :=
  match s with
  | some t => t != ""
  | none => false

/-- `!tokenExpiry || Date.now() < tokenExpiry` (line 170): `null` and `0`
are both falsy. -/
def expiryAllows (expiry : Option Nat) (now : Nat) : Bool :=
  match expiry with
  | none => true
  | some e => e == 0 || decide (now < e)

/-- Result of one `getAcessToken()` call. -/
structure TokenResult where
  token : Option String
  newCache : Option String
  loginIssued : Bool
deriving DecidableEq

/-- `getAcessToken` (lines 168-198).  `loginResp` is the
`response.data.data.access_token` of the login POST, `none` if the request
threw or yielded no token.  Returns the token handed to the caller (`none`
models the `return null` of the catch), the new `cachedToken`, and whether
a login request was issued. -/
def getAcessToken (cached : Option String) (expiry : Option Nat) (now : Nat)
    (loginResp : Option String) : TokenResult :=
  if strTruthy cached && expiryAllows expiry now then
    { token := cached, newCache := cached, loginIssued := false }
  else
    match loginResp with
    | some t =>
      if t = "" then
        { token := none, newCache := cached, loginIssued := true }
      else
        { token := some t, newCache := some t, loginIssued := true }
    | none => { token := none, newCache := cached, loginIssued := true }

/-- A sequence of `getAcessToken()` calls: each element gives the call's
`Date.now()` and the login response it would get if it logged in.  Returns
the per-call results, the final cache, and the number of logins issued. -/
def runGetTokenCalls (cached : Option String) :
    List (Nat × Option String) → List (Option String) × Option String × Nat
  | [] => ([], cached, 0)
  | (now, resp) :: rest =>
    let r := getAcessToken cached tokenExpiry now resp
    let rest2 := runGetTokenCalls r.newCache rest
    (r.token :: rest2.1, rest2.2.1, (if r.loginIssued then 1 else 0) + rest2.2.2)

/-- Result of the one-shot fallback fetch loop inside `startStream`
(lines 225-266). -/
structure FetchResult where
  drone : Option DroneRecord
  attempts : Nat
  delays : List Nat
  markedDisconnected : Bool
deriving DecidableEq

/-- The `while (fetchAttempts < maxFetchAttempts && !drone)` loop
(lines 228-266), unrolled for its constant bound `maxFetchAttempts = 3`.
`resps i` is the outcome of the GET made while `fetchAttempts = i`.  After
failure number `k` (the counter just incremented to `k`), the loop sleeps
`1000 * k` ms (so 1000 then 2000) and retries while `k < 3`; the third
failure instead sets `databaseConnected = false` and abandons the start
attempt (lines 260-263). -/
def fallbackFetch (resps : Nat → Option DroneRecord) : FetchResult :=
  match resps 0 with
  | some rec => { drone := some rec, attempts := 1, delays := [], markedDisconnected := false }
  | none =>
    match resps 1 with
    | some rec => { drone := some rec, attempts := 2, delays := [1000], markedDisconnected := false }
    | none =>
      match resps 2 with
      | some rec =>
        { drone := some rec, attempts := 3, delays := [1000, 2000], markedDisconnected := false }
      | none =>
        { drone := none, attempts := 3, delays := [1000, 2000], markedDisconnected := true }

/-- How a `startStream(droneSN)` invocation ended. -/
inductive StartOutcome where
  | alreadyStarted
  | noToken
  | notFound
  | noCamera
  | started
  | gatewayFailed
deriving DecidableEq

/-- Outcomes of the remote calls a `startStream` invocation may make:
the login response (if a login is needed), the per-attempt fallback-fetch
outcomes, and the stream-start POST outcome (`some url` = HTTP 200/201
with `response.data.data.url = url`; `none` = the request threw or another
status). -/
structure StartEnv where
  tokenResp : Option String
  fetchResps : Nat → Option DroneRecord
  gwResp : Option String

/-- Everything one `startStream` invocation did. -/
structure StartResult where
  state : ServerState
  loginIssued : Bool
  fetchAttempts : Nat
  fetchDelays : List Nat
  gatewayCalled : Bool
  statusUpdates : List (String × Bool × String)
  outcome : StartOutcome

/-- The tail of `startStream` once a drone config is resolved
(lines 274-316): take the first camera; `if (!cameraId)` abort; otherwise
POST to the stream API; on 200/201 report `streamIsOn=true` with the
returned URL and add `sn` to `startedStreams`; otherwise change nothing. -/
def startWithDrone (st : ServerState) (sn : String) (drone : Drone) (gwResp : Option String)
    (login : Bool) (fA : Nat) (fD : List Nat) : StartResult :=
  if drone.cameras.head? = none ∨ drone.cameras.head? = some "" then
    { state := st, loginIssued := login, fetchAttempts := fA, fetchDelays := fD
      gatewayCalled := false, statusUpdates := [], outcome := .noCamera }
  else
    match gwResp with
    | some url =>
      { state := { st with startedStreams := setAdd st.startedStreams sn }
        loginIssued := login, fetchAttempts := fA, fetchDelays := fD
        gatewayCalled := true, statusUpdates := [(sn, true, url)], outcome := .started }
    | none =>
      { state := st, loginIssued := login, fetchAttempts := fA, fetchDelays := fD
        gatewayCalled := true, statusUpdates := [], outcome := .gatewayFailed }

/-- `startStream(droneSN)` (lines 203-321) run to completion in isolation:
entry guard on `startedStreams`; `getAcessToken`; resolve the drone from
`dronesConfig` with the fallback fetch on a cache miss (a fetched drone is
appended to `dronesConfig` and its serial to `droneSNs`, lines 246-250;
exhaustion sets `databaseConnected = false` and abandons, lines 260-263);
then the camera guard and the gateway call. -/
def startStream (st : ServerState) (sn : String) (env : StartEnv) (now : Nat) : StartResult :=
  if sn ∈ st.startedStreams then
    { state := st, loginIssued := false, fetchAttempts := 0, fetchDelays := []
      gatewayCalled := false, statusUpdates := [], outcome := .alreadyStarted }
  else
    let tr := getAcessToken st.cachedToken tokenExpiry now env.tokenResp
    let st1 := { st with cachedToken := tr.newCache }
    match tr.token with
    | none =>
      { state := st1, loginIssued := tr.loginIssued, fetchAttempts := 0, fetchDelays := []
        gatewayCalled := false, statusUpdates := [], outcome := .noToken }
    | some _ =>
      match st1.registry.dronesConfig.find? (fun d => d.sn == sn) with
      | some drone => startWithDrone st1 sn drone env.gwResp tr.loginIssued 0 []
      | none =>
        let fr := fallbackFetch env.fetchResps
        match fr.drone with
        | some rec =>
          let drone := transformDrone rec
          let st2 := { st1 with registry := { st1.registry with
              dronesConfig := st1.registry.dronesConfig ++ [drone]
              droneSNs := if sn ∈ st1.registry.droneSNs then st1.registry.droneSNs
                          else st1.registry.droneSNs ++ [sn] } }
          startWithDrone st2 sn drone env.gwResp tr.loginIssued fr.attempts fr.delays
        | none =>
          { state := { st1 with registry := { st1.registry with databaseConnected := false } }
            loginIssued := tr.loginIssued, fetchAttempts := fr.attempts
            fetchDelays := fr.delays, gatewayCalled := false, statusUpdates := []
            outcome := .notFound }

/-- One entry's processing inside the inactivity-watchdog sweep
(lines 132-148): if the drone has been silent longer than
`INACTIVITY_TIMEOUT_MS`, remove it from `startedStreams` (reporting
`streamIsOn=false` if it was there) and delete its `lastSeen` entry. -/
def sweepEntry (now : Nat) (acc : ServerState × List (String × Bool × String))
    (e : String × Nat) : ServerState × List (String × Bool × String) :=
  if INACTIVITY_TIMEOUT_MS < now - e.2 then
    if e.1 ∈ acc.1.startedStreams then
      ({ acc.1 with
          startedStreams := acc.1.startedStreams.erase e.1
          droneLastMessageTime := acc.1.droneLastMessageTime.filter (fun p => p.1 != e.1) }
       , acc.2 ++ [(e.1, false, "")])
    else
      ({ acc.1 with
          droneLastMessageTime := acc.1.droneLastMessageTime.filter (fun p => p.1 != e.1) }
       , acc.2)
  else acc

/-- One tick of the inactivity watchdog (lines 132-148): iterate over the
`droneLastMessageTime` entries, producing the list of
`updateDroneStreamStatus(sn, false, '')` calls issued. -/
def watchdogSweep (now : Nat) (st : ServerState) :
    ServerState × List (String × Bool × String) :=
  st.droneLastMessageTime.foldl (sweepEntry now) (st, [])

/-- Number of status updates in `ups` that concern `sn`. -/
def countFor (sn : String) (ups : List (String × Bool × String)) : Nat :=
  (ups.filter (fun u => u.1 == sn)).length

/-- Per-device view of the event-loop interleaving around `startStream`.
`started` is `startedStreams.has(sn)`; `inFlight` counts `startStream(sn)`
invocations that have passed the entry guard (line 205) but whose async
body has not yet resolved.  Both the handler's check (line 410) and the
entry guard (line 205) run synchronously before the first `await`
(line 211), so together they form one atomic step per arriving message. -/
structure ConcState where
  started : Bool
  inFlight : Nat
deriving DecidableEq

/-- Events of the interleaving: a presence telemetry message for the device
is handled to completion of its synchronous prefix (lines 404-412 plus
lines 203-211 of `startStream`), or one outstanding `startStream` body
resolves.  `startedStreams.add(sn)` happens only on successful resolution
(line 312); a failed resolution (any caught error, missing token, missing
camera, non-2xx response) changes nothing. -/
inductive CEvent where
  | presenceMsg
  | resolveSuccess
  | resolveFail
deriving DecidableEq

/-- One atomic step of the interleaving. -/
def cstep (s : ConcState) : CEvent → ConcState
  | .presenceMsg => if s.started then s else { s with inFlight := s.inFlight + 1 }
  | .resolveSuccess =>
    if 0 < s.inFlight then { started := true, inFlight := s.inFlight - 1 } else s
  | .resolveFail =>
    if 0 < s.inFlight then { s with inFlight := s.inFlight - 1 } else s

/-- Run a sequence of interleaving events. -/
def crun (s : ConcState) (evs : List CEvent) : ConcState :=
  evs.foldl cstep s

/-- A device as stored by the registry transform, with one configured
camera: used as concrete input below. -/
def sampleDrone : Drone :=
  { sn := "BC001", name := "drone1", aliasName := "drone1"
    userName := "u", password := "p", port := "8554", cameras := ["camA"] }

/-- A device with an empty camera list: used as concrete input below. -/
def sampleDroneNoCam : Drone :=
  { sn := "BC002", name := "drone2", aliasName := "drone2"
    userName := "u", password := "p", port := "8554", cameras := [] }

/-- A concrete server state in which `BC001` is currently streaming. -/
def stStreaming : ServerState :=
  { registry :=
      { dronesConfig := [sampleDrone], droneSNs := ["BC001"]
        databaseConnected := true, retryCount := 0 }
    startedStreams := ["BC001"]
    droneLastMessageTime := [("BC001", 0)]
    cachedToken := none }

/-- A concrete server state in which `BC001` is idle. -/
def stIdle : ServerState :=
  { registry :=
      { dronesConfig := [sampleDrone], droneSNs := ["BC001"]
        databaseConnected := true, retryCount := 0 }
    startedStreams := []
    droneLastMessageTime := []
    cachedToken := none }

/-- A concrete server state with a cached token, a camera-less device
`BC002` in the registry, and nothing streaming. -/
def stNoCam : ServerState :=
  { registry :=
      { dronesConfig := [sampleDroneNoCam], droneSNs := ["BC002"]
        databaseConnected := true, retryCount := 0 }
    startedStreams := []
    droneLastMessageTime := []
    cachedToken := some "tok" }

/-- A concrete registry state holding one cached device. -/
def regCached : RegistryState :=
  { dronesConfig := [sampleDrone], droneSNs := ["BC001"]
    databaseConnected := true, retryCount := 0 }

/-- A concrete start-stream environment in which every remote fetch fails. -/
def envAllFail : StartEnv :=
  { tokenResp := none, fetchResps := fun _ => none, gwResp := none }

/-! ### Helper lemmas -/

theorem stopBranch_invokedStart (st : ServerState) (sn : String) :
    (stopBranch st sn).invokedStart = false := by
  unfold stopBranch
  split <;> rfl

theorem stopBranch_lastSeen (st : ServerState) (sn : String) :
    (stopBranch st sn).state.droneLastMessageTime = st.droneLastMessageTime := by
  unfold stopBranch
  split <;> rfl

theorem stopBranch_registry (st : ServerState) (sn : String) :
    (stopBranch st sn).state.registry = st.registry := by
  unfold stopBranch
  split <;> rfl

theorem stopBranch_not_started (st : ServerState) (sn : String) (h : sn ∉ st.startedStreams) :
    stopBranch st sn = { state := st, invokedStart := false, statusUpdates := [] } := by
  unfold stopBranch
  simp [h]

theorem handle_lastSeen (st : ServerState) (sn : String) (t : Nat) (d : DataField) :
    (handleMessage st sn t d).state.droneLastMessageTime = mapSet st.droneLastMessageTime sn t := by
  cases d with
  | missing => rfl
  | obj present =>
    cases hcam : getDroneFirstCamera st.registry.dronesConfig sn with
    | some cam =>
      by_cases hp : cam ∈ present
      · by_cases hs : sn ∈ st.startedStreams <;> simp [handleMessage, hcam, hp, hs]
      · simp only [handleMessage, hcam, if_neg hp]
        exact stopBranch_lastSeen _ _
    | none =>
      simp only [handleMessage, hcam]
      exact stopBranch_lastSeen _ _

theorem handle_registry (st : ServerState) (sn : String) (t : Nat) (d : DataField) :
    (handleMessage st sn t d).state.registry = st.registry := by
  cases d with
  | missing => rfl
  | obj present =>
    cases hcam : getDroneFirstCamera st.registry.dronesConfig sn with
    | some cam =>
      by_cases hp : cam ∈ present
      · by_cases hs : sn ∈ st.startedStreams <;> simp [handleMessage, hcam, hp, hs]
      · simp only [handleMessage, hcam, if_neg hp]
        exact stopBranch_registry _ _
    | none =>
      simp only [handleMessage, hcam]
      exact stopBranch_registry _ _

theorem mapGet_mapSet_self (m : List (String × Nat)) (k : String) (v : Nat) :
    mapGet (mapSet m k v) k = some v := by
  induction m with
  | nil => simp [mapSet, mapGet]
  | cons e rest ih =>
    by_cases he : e.1 = k
    · simp [mapSet, mapGet, he]
    · simp [mapSet, mapGet, he, ih]

theorem mapGet_filter_ne (m : List (String × Nat)) (k j : String) (hne : j ≠ k) :
    mapGet (m.filter (fun p => p.1 != j)) k = mapGet m k := by
  induction m with
  | nil => rfl
  | cons e rest ih =>
    by_cases he : e.1 = j
    · simp [List.filter_cons, mapGet, he, hne, ih]
    · simp [List.filter_cons, mapGet, he, ih]

theorem mapGet_filter_self (m : List (String × Nat)) (k : String) :
    mapGet (m.filter (fun p => p.1 != k)) k = none := by
  induction m with
  | nil => rfl
  | cons e rest ih =>
    by_cases he : e.1 = k
    · simp [List.filter_cons, he, ih]
    · simp [List.filter_cons, mapGet, he, ih]

theorem mapGet_some_mem (m : List (String × Nat)) (k : String) (v : Nat)
    (h : mapGet m k = some v) : (k, v) ∈ m := by
  induction m with
  | nil => simp [mapGet] at h
  | cons e rest ih =>
    by_cases he : e.1 = k
    · simp only [mapGet, if_pos he] at h
      have : e = (k, v) := by
        obtain ⟨e1, e2⟩ := e
        simp_all
      simp [this]
    · simp only [mapGet, if_neg he] at h
      exact List.mem_cons_of_mem _ (ih h)

theorem mapGet_none_not_mem (m : List (String × Nat)) (k : String)
    (h : mapGet m k = none) : ∀ e ∈ m, e.1 ≠ k := by
  induction m with
  | nil => simp
  | cons e rest ih =>
    by_cases he : e.1 = k
    · simp [mapGet, he] at h
    · simp only [mapGet, if_neg he] at h
      intro x hx
      rcases List.mem_cons.mp hx with hh | hh
      · rw [hh]; exact he
      · exact ih h x hh

theorem mapGet_eq_value_of_nodup (m : List (String × Nat)) (k : String) (v : Nat)
    (hnd : (m.map Prod.fst).Nodup) (hmem : (k, v) ∈ m) : mapGet m k = some v := by
  induction m with
  | nil => cases hmem
  | cons e rest ih =>
    rcases List.mem_cons.mp hmem with hh | hh
    · rw [← hh]
      simp [mapGet]
    · have hk : k ∈ rest.map Prod.fst := by
        exact List.mem_map_of_mem Prod.fst hh
      have hne : e.1 ≠ k := by
        intro hc
        rw [List.map_cons, List.nodup_cons] at hnd
        exact hnd.1 (hc ▸ hk)
      simp only [mapGet, if_neg hne]
      exact ih (by rw [List.map_cons, List.nodup_cons] at hnd; exact hnd.2) hh

theorem countFor_append (sn : String) (a b : List (String × Bool × String)) :
    countFor sn (a ++ b) = countFor sn a + countFor sn b := by
  simp [countFor, List.filter_append]

theorem countFor_single_ne (sn j : String) (x : Bool) (y : String) (h : j ≠ sn) :
    countFor sn [(j, x, y)] = 0 := by
  simp [countFor, h]

theorem countFor_single_self (sn : String) (x : Bool) (y : String) :
    countFor sn [(sn, x, y)] = 1 := by
  simp [countFor]

theorem getAcessToken_cached (t : String) (ht : t ≠ "") (now : Nat) (resp : Option String) :
    getAcessToken (some t) tokenExpiry now resp =
      { token := some t, newCache := some t, loginIssued := false } := by
  simp [getAcessToken, strTruthy, expiryAllows, tokenExpiry, ht]

theorem sweep_preserve (now : Nat) (sn : String) :
    ∀ (entries : List (String × Nat)) (st : ServerState) (ups : List (String × Bool × String)),
      (∀ e ∈ entries, e.1 = sn → now ≤ e.2 + INACTIVITY_TIMEOUT_MS) →
      countFor sn (entries.foldl (sweepEntry now) (st, ups)).2 = countFor sn ups ∧
      (sn ∈ (entries.foldl (sweepEntry now) (st, ups)).1.startedStreams ↔
        sn ∈ st.startedStreams) ∧
      mapGet (entries.foldl (sweepEntry now) (st, ups)).1.droneLastMessageTime sn =
        mapGet st.droneLastMessageTime sn := by
  intro entries
  induction entries with
  | nil => intro st ups _; exact ⟨rfl, Iff.rfl, rfl⟩
  | cons e rest ih =>
    intro st ups h
    have hrest : ∀ x ∈ rest, x.1 = sn → now ≤ x.2 + INACTIVITY_TIMEOUT_MS :=
      fun x hx => h x (List.mem_cons_of_mem _ hx)
    by_cases hc : INACTIVITY_TIMEOUT_MS < now - e.2
    · have hesn : e.1 ≠ sn := by
        intro hE
        have := h e (List.mem_cons_self _ _) hE
        omega
      by_cases hm : e.1 ∈ st.startedStreams
      · have hstep : sweepEntry now (st, ups) e =
            ({ st with
                startedStreams := st.startedStreams.erase e.1
                droneLastMessageTime :=
                  st.droneLastMessageTime.filter (fun p => p.1 != e.1) }
             , ups ++ [(e.1, false, "")]) := by
          simp [sweepEntry, hc, hm]
        rw [List.foldl_cons, hstep]
        obtain ⟨ih1, ih2, ih3⟩ := ih _ _ hrest
        refine ⟨?_, ?_, ?_⟩
        · rw [ih1, countFor_append, countFor_single_ne sn e.1 false "" hesn]
          omega
        · rw [ih2]
          exact List.mem_erase_of_ne (Ne.symm hesn)
        · rw [ih3]
          exact mapGet_filter_ne _ _ _ hesn
      · have hstep : sweepEntry now (st, ups) e =
            ({ st with
                droneLastMessageTime :=
                  st.droneLastMessageTime.filter (fun p => p.1 != e.1) }
             , ups) := by
          simp [sweepEntry, hc, hm]
        rw [List.foldl_cons, hstep]
        obtain ⟨ih1, ih2, ih3⟩ := ih _ _ hrest
        refine ⟨ih1, ih2, ?_⟩
        · rw [ih3]
          exact mapGet_filter_ne _ _ _ hesn
    · have hstep : sweepEntry now (st, ups) e = (st, ups) := by
        simp [sweepEntry, hc]
      rw [List.foldl_cons, hstep]
      exact ih _ _ hrest

theorem sweep_fires (now : Nat) (sn : String) (L : Nat)
    (hlt : L + INACTIVITY_TIMEOUT_MS < now) :
    ∀ (entries : List (String × Nat)) (st : ServerState) (ups : List (String × Bool × String)),
      (entries.map Prod.fst).Nodup →
      (sn, L) ∈ entries →
      sn ∈ st.startedStreams →
      st.startedStreams.Nodup →
      countFor sn (entries.foldl (sweepEntry now) (st, ups)).2 = countFor sn ups + 1 ∧
      sn ∉ (entries.foldl (sweepEntry now) (st, ups)).1.startedStreams ∧
      mapGet (entries.foldl (sweepEntry now) (st, ups)).1.droneLastMessageTime sn = none := by
  intro entries
  induction entries with
  | nil => intro st ups _ hmem; cases hmem
  | cons e rest ih =>
    intro st ups hnd hmem hstart hsnd
    have hndtail : (rest.map Prod.fst).Nodup := by
      rw [List.map_cons, List.nodup_cons] at hnd
      exact hnd.2
    have hheadnotin : e.1 ∉ rest.map Prod.fst := by
      rw [List.map_cons, List.nodup_cons] at hnd
      exact hnd.1
    by_cases hesn : e.1 = sn
    · have he : e = (sn, L) := by
        rcases List.mem_cons.mp hmem with hh | hh
        · exact hh.symm
        · exact absurd (hesn ▸ List.mem_map_of_mem Prod.fst hh) hheadnotin
      have hcond : INACTIVITY_TIMEOUT_MS < now - e.2 := by
        rw [he]
        omega
      have hm : e.1 ∈ st.startedStreams := hesn ▸ hstart
      have hstep : sweepEntry now (st, ups) e =
          ({ st with
              startedStreams := st.startedStreams.erase e.1
              droneLastMessageTime :=
                st.droneLastMessageTime.filter (fun p => p.1 != e.1) }
           , ups ++ [(e.1, false, "")]) := by
        simp [sweepEntry, hcond, hm]
      rw [List.foldl_cons, hstep]
      have hrest : ∀ x ∈ rest, x.1 = sn → now ≤ x.2 + INACTIVITY_TIMEOUT_MS := by
        intro x hx hxsn
        exact absurd (hxsn ▸ List.mem_map_of_mem Prod.fst hx) (hesn ▸ hheadnotin)
      obtain ⟨p1, p2, p3⟩ := sweep_preserve now sn rest _ _ hrest
      refine ⟨?_, ?_, ?_⟩
      · rw [p1, countFor_append, hesn, countFor_single_self]
      · rw [p2, hesn]
        intro hcontr
        exact ((List.Nodup.mem_erase_iff hsnd).mp hcontr).1 rfl
      · rw [p3, hesn]
        exact mapGet_filter_self _ _
    · have hmem2 : (sn, L) ∈ rest := by
        rcases List.mem_cons.mp hmem with hh | hh
        · exact absurd (congrArg Prod.fst hh.symm) hesn
        · exact hh
      by_cases hc : INACTIVITY_TIMEOUT_MS < now - e.2
      · by_cases hm : e.1 ∈ st.startedStreams
        · have hstep : sweepEntry now (st, ups) e =
              ({ st with
                  startedStreams := st.startedStreams.erase e.1
                  droneLastMessageTime :=
                    st.droneLastMessageTime.filter (fun p => p.1 != e.1) }
               , ups ++ [(e.1, false, "")]) := by
            simp [sweepEntry, hc, hm]
          rw [List.foldl_cons, hstep]
          have hstart2 : sn ∈ st.startedStreams.erase e.1 :=
            (List.mem_erase_of_ne (Ne.symm hesn)).mpr hstart
          obtain ⟨q1, q2, q3⟩ := ih
            { st with
                startedStreams := st.startedStreams.erase e.1
                droneLastMessageTime :=
                  st.droneLastMessageTime.filter (fun p => p.1 != e.1) }
            (ups ++ [(e.1, false, "")]) hndtail hmem2 hstart2 (hsnd.erase e.1)
          refine ⟨?_, q2, q3⟩
          · rw [q1, countFor_append, countFor_single_ne sn e.1 false "" hesn]
        · have hstep : sweepEntry now (st, ups) e =
              ({ st with
                  droneLastMessageTime :=
                    st.droneLastMessageTime.filter (fun p => p.1 != e.1) }
               , ups) := by
            simp [sweepEntry, hc, hm]
          rw [List.foldl_cons, hstep]
          exact ih _ _ hndtail hmem2 hstart hsnd
      · have hstep : sweepEntry now (st, ups) e = (st, ups) := by
          simp [sweepEntry, hc]
        rw [List.foldl_cons, hstep]
        exact ih _ _ hndtail hmem2 hstart hsnd

theorem watchdog_fire (st : ServerState) (sn : String) (L now : Nat)
    (hK : (st.droneLastMessageTime.map Prod.fst).Nodup)
    (hS : st.startedStreams.Nodup)
    (hL : mapGet st.droneLastMessageTime sn = some L)
    (hMem : sn ∈ st.startedStreams)
    (hlt : L + INACTIVITY_TIMEOUT_MS < now) :
    countFor sn (watchdogSweep now st).2 = 1 ∧
    sn ∉ (watchdogSweep now st).1.startedStreams ∧
    mapGet (watchdogSweep now st).1.droneLastMessageTime sn = none := by
  have hmem := mapGet_some_mem _ _ _ hL
  have h := sweep_fires now sn L hlt st.droneLastMessageTime st [] hK hmem hMem hS
  have hz : countFor sn ([] : List (String × Bool × String)) = 0 := rfl
  unfold watchdogSweep
  rw [hz] at h
  exact h

theorem retry_delay_midpoint (a : Nat) :
    calculateRetryDelay a (1 / 2) = ((min (2000 * 2 ^ a) 30000 : Nat) : Int) := by
  have h1 : exponentialDelayQ a = ((min (2000 * 2 ^ a) 30000 : Nat) : Rat) := by
    unfold exponentialDelayQ INITIAL_RETRY_DELAY_MS MAX_RETRY_DELAY_MS
    push_cast
    norm_num
  have h0 : exponentialDelayQ a + exponentialDelayQ a * (2 / 10) * ((1 : Rat) / 2 - 1 / 2)
      = ((min (2000 * 2 ^ a) 30000 : Nat) : Rat) := by
    rw [h1]
    ring
  unfold calculateRetryDelay
  rw [h0, Int.floor_natCast]

/-- C3 counterexample: the claim says the delay before retry `n` (1-based)
is `base * n` for a fixed base.  At the jitter midpoint
(`Math.random() = 0.5`, zero jitter) the code's delays for `n = 1` and
`n = 3` (0-based attempts 0 and 2) are 2000 and 8000; no fixed base `b`
satisfies both `2000 = b * 1` and `8000 = b * 3`. -/
theorem retry_delay_not_linear :
    ¬ ∃ b : Rat, ((calculateRetryDelay 0 (1 / 2) : Rat) = b * 1 ∧
                  (calculateRetryDelay 2 (1 / 2) : Rat) = b * 3) := by
  rintro ⟨b, h1, h2⟩
  rw [retry_delay_midpoint] at h1
  rw [retry_delay_midpoint] at h2
  norm_num at h1 h2
  linarith

/-- C3 amended: the delay inserted after the failed attempt with 0-based
index `a` is the capped exponential-backoff value
`min(2000 * 2 ^ a, 30000)` ms (then perturbed by a random jitter of at most
10 percent), not a fixed base times the attempt number: at the jitter
midpoint the delay is exactly the capped exponential value. -/
theorem retry_delay_exponential (a : Nat) :
    calculateRetryDelay a (1 / 2) = ((min (2000 * 2 ^ a) 30000 : Nat) : Int) :=
  retry_delay_midpoint a

theorem loadAux_spec (resp : Nat → Option (List DroneRecord)) :
    ∀ (rem attempt : Nat) (st : RegistryState),
      ((loadAux resp rem attempt st).2 = false →
        (loadAux resp rem attempt st).1.dronesConfig = st.dronesConfig ∧
        (loadAux resp rem attempt st).1.droneSNs = st.droneSNs ∧
        (loadAux resp rem attempt st).1.databaseConnected = false) ∧
      ((loadAux resp rem attempt st).2 = true →
        ∃ k ds, resp k = some ds ∧ (loadAux resp rem attempt st).1 = applySuccess st ds) := by
  intro rem
  induction rem with
  | zero =>
    intro attempt st
    cases hr : resp attempt with
    | some ds =>
      constructor
      · intro h
        simp [loadAux, hr] at h
      · intro _
        exact ⟨attempt, ds, hr, by simp [loadAux, hr]⟩
    | none =>
      constructor
      · intro _
        simp [loadAux, hr]
      · intro h
        simp [loadAux, hr] at h
  | succ r ih =>
    intro attempt st
    cases hr : resp attempt with
    | some ds =>
      constructor
      · intro h
        simp [loadAux, hr] at h
      · intro _
        exact ⟨attempt, ds, hr, by simp [loadAux, hr]⟩
    | none =>
      have hred : loadAux resp (r + 1) attempt st = loadAux resp r (attempt + 1) st := by
        simp [loadAux, hr]
      rw [hred]
      exact ih (attempt + 1) st

/-- C4: a failed `loadDronesFromAPI` invocation leaves `dronesConfig` and
`droneSNs` exactly as they were (no partial overwrite); the cached set is
replaced only on a successful attempt, and then wholesale with the
transform of that attempt's full response (plus `databaseConnected = true`). -/
theorem load_all_or_nothing (resp : Nat → Option (List DroneRecord)) (st : RegistryState) :
    ((loadDronesFromAPI resp st).2 = false →
      (loadDronesFromAPI resp st).1.dronesConfig = st.dronesConfig ∧
      (loadDronesFromAPI resp st).1.droneSNs = st.droneSNs) ∧
    ((loadDronesFromAPI resp st).2 = true →
      ∃ k ds, resp k = some ds ∧
        (loadDronesFromAPI resp st).1.dronesConfig = ds.map transformDrone ∧
        (loadDronesFromAPI resp st).1.droneSNs = (ds.map transformDrone).map (fun d => d.sn) ∧
        (loadDronesFromAPI resp st).1.databaseConnected = true) := by
  constructor
  · intro h
    have hs := (loadAux_spec resp (MAX_RETRY_ATTEMPTS - 1) 0 st).1 h
    exact ⟨hs.1, hs.2.1⟩
  · intro h
    obtain ⟨k, ds, hk, he⟩ := (loadAux_spec resp (MAX_RETRY_ATTEMPTS - 1) 0 st).2 h
    refine ⟨k, ds, hk, ?_, ?_, ?_⟩
    · rw [show (loadDronesFromAPI resp st).1 = applySuccess st ds from he]
      rfl
    · rw [show (loadDronesFromAPI resp st).1 = applySuccess st ds from he]
      rfl
    · rw [show (loadDronesFromAPI resp st).1 = applySuccess st ds from he]
      rfl

theorem load_all_or_nothing_witness :
    (loadDronesFromAPI (fun _ => none) regCached).1.dronesConfig = regCached.dronesConfig ∧
    (loadDronesFromAPI (fun k => if k = 4 then some [] else none) regCached).1.dronesConfig
      = [] :=
  ⟨((load_all_or_nothing (fun _ => none) regCached).1 (by decide)).1,
   by
    obtain ⟨k, ds, hk, hc, -, -⟩ :=
      (load_all_or_nothing (fun k => if k = 4 then some [] else none) regCached).2 (by decide)
    rw [hc]
    have : ds = [] := by
      by_cases h4 : k = 4
      · rw [h4] at hk
        simpa using hk.symm
      · simp [h4] at hk
    rw [this]
    rfl⟩

theorem loadAux_allfail (resp : Nat → Option (List DroneRecord))
    (hf : ∀ k, resp k = none) :
    ∀ (rem attempt : Nat) (st : RegistryState),
      (loadAux resp rem attempt st).2 = false ∧
      (loadAux resp rem attempt st).1.dronesConfig = st.dronesConfig ∧
      (loadAux resp rem attempt st).1.droneSNs = st.droneSNs ∧
      (loadAux resp rem attempt st).1.databaseConnected = false := by
  intro rem
  induction rem with
  | zero =>
    intro attempt st
    simp [loadAux, hf attempt]
  | succ r ih =>
    intro attempt st
    have hred : loadAux resp (r + 1) attempt st = loadAux resp r (attempt + 1) st := by
      simp [loadAux, hf attempt]
    rw [hred]
    exact ih (attempt + 1) st

/-- C6: when every attempt of a `loadDronesFromAPI` run fails, the run
returns `false` to its caller (it is a total function — no exception
escapes), sets `databaseConnected = false`, leaves the previously cached
device set and serial list untouched (still queryable), and the
reconnection supervisor attempts a reload on any tick on which the
connected flag is false (and only on those). -/
theorem load_exhaust_disconnect (resp resp2 : Nat → Option (List DroneRecord))
    (st : RegistryState) (hf : ∀ k, resp k = none) :
    (loadDronesFromAPI resp st).2 = false ∧
    (loadDronesFromAPI resp st).1.databaseConnected = false ∧
    (loadDronesFromAPI resp st).1.dronesConfig = st.dronesConfig ∧
    (loadDronesFromAPI resp st).1.droneSNs = st.droneSNs ∧
    (supervisorTick resp2 (loadDronesFromAPI resp st).1).loadAttempted = true ∧
    (∀ st2 : RegistryState, st2.databaseConnected = false →
      (supervisorTick resp2 st2).loadAttempted = true) ∧
    (∀ st2 : RegistryState, st2.databaseConnected = true →
      (supervisorTick resp2 st2).loadAttempted = false) := by
  have h := loadAux_allfail resp hf (MAX_RETRY_ATTEMPTS - 1) 0 st
  refine ⟨h.1, h.2.2.2, h.2.1, h.2.2.1, ?_, ?_, ?_⟩
  · have hc : (loadDronesFromAPI resp st).1.databaseConnected = false := h.2.2.2
    simp [supervisorTick, hc]
  · intro st2 h2
    simp [supervisorTick, h2]
  · intro st2 h2
    simp [supervisorTick, h2]

theorem load_exhaust_disconnect_witness :
    (loadDronesFromAPI (fun _ => none) regCached).2 = false ∧
    (loadDronesFromAPI (fun _ => none) regCached).1.dronesConfig = regCached.dronesConfig :=
  ⟨(load_exhaust_disconnect (fun _ => none) (fun _ => none) regCached (fun _ => rfl)).1,
   (load_exhaust_disconnect (fun _ => none) (fun _ => none) regCached (fun _ => rfl)).2.2.1⟩

/-- C9: `tokenExpiry` is `null` and never assigned, so the expiry guard of
`getAcessToken` always allows the cache: one successful login caches the
token, and from then on every call returns the same cached token and never
issues another login request (the expired-token branch is unreachable). -/
theorem token_cached_forever :
    tokenExpiry = none ∧
    (∀ now : Nat, expiryAllows tokenExpiry now = true) ∧
    (∀ (t : String), t ≠ "" → ∀ now : Nat,
      getAcessToken none tokenExpiry now (some t) =
        { token := some t, newCache := some t, loginIssued := true }) ∧
    (∀ (t : String), t ≠ "" → ∀ (calls : List (Nat × Option String)),
      runGetTokenCalls (some t) calls =
        (calls.map (fun _ => some t), some t, 0)) := by
  refine ⟨rfl, fun _ => rfl, ?_, ?_⟩
  · intro t ht now
    simp [getAcessToken, strTruthy, tokenExpiry, ht]
  · intro t ht calls
    induction calls with
    | nil => rfl
    | cons c rest ih =>
      obtain ⟨now, resp⟩ := c
      simp [runGetTokenCalls, getAcessToken_cached t ht now resp, ih]

theorem token_cached_forever_witness :
    runGetTokenCalls (some "tok") [(1, none), (2, some "u")] =
      ([some "tok", some "tok"], some "tok", 0) :=
  token_cached_forever.2.2.2 "tok" (by decide) [(1, none), (2, some "u")]

/-- C2 counterexample: `stStreaming` has device `BC001` currently
STREAMING; a decoded message whose `data` section is missing/non-object
does NOT take the stop transition: `BC001` stays in `startedStreams` and
no `streamIsOn=false` update is issued, unlike an explicit camera-absent
message. -/
theorem missing_data_counterexample :
    ¬ ("BC001" ∉ (handleMessage stStreaming "BC001" 100 DataField.missing).state.startedStreams ∧
       ("BC001", false, "") ∈
         (handleMessage stStreaming "BC001" 100 DataField.missing).statusUpdates) := by
  decide

/-- C2 amended: a message that decodes but whose `data` section is missing
or not an object is ignored apart from the `lastSeen` refresh: no start is
invoked, no status update is issued, and `startedStreams` (hence a
STREAMING state) and the registry are left unchanged — it is not treated
as camera-absent evidence. -/
theorem missing_data_ignored (st : ServerState) (sn : String) (now : Nat) :
    (handleMessage st sn now DataField.missing).invokedStart = false ∧
    (handleMessage st sn now DataField.missing).statusUpdates = [] ∧
    (handleMessage st sn now DataField.missing).state.startedStreams = st.startedStreams ∧
    (handleMessage st sn now DataField.missing).state.registry = st.registry ∧
    (handleMessage st sn now DataField.missing).state.droneLastMessageTime
      = mapSet st.droneLastMessageTime sn now := by
  exact ⟨rfl, rfl, rfl, rfl, rfl⟩

/-- C1 counterexample: from the initial state (not started, nothing in
flight), two presence messages arriving before the first `startStream`
body resolves leave two concurrent start-stream calls in flight — the
`startedStreams` guard (set only on success, line 312) does not prevent
the second call. -/
theorem two_concurrent_starts :
    ¬ ((crun { started := false, inFlight := 0 }
          [CEvent.presenceMsg, CEvent.presenceMsg]).inFlight ≤ 1) := by
  decide

/-- C1 amended: the only duplicate-start guard is membership in
`startedStreams`, which is added only after a successful start.  Hence a
presence message arriving while the device is marked started triggers no
new call, but a presence message arriving while a start attempt is still
unresolved (device not yet marked) launches one additional concurrent
start-stream call. -/
theorem started_set_guard (s : ConcState) :
    (s.started = true → cstep s CEvent.presenceMsg = s) ∧
    (s.started = false → (cstep s CEvent.presenceMsg).inFlight = s.inFlight + 1) := by
  constructor
  · intro h
    simp [cstep, h]
  · intro h
    simp [cstep, h]

theorem started_set_guard_witness :
    cstep { started := true, inFlight := 0 } CEvent.presenceMsg
      = { started := true, inFlight := 0 } ∧
    (cstep { started := false, inFlight := 1 } CEvent.presenceMsg).inFlight = 2 :=
  ⟨(started_set_guard { started := true, inFlight := 0 }).1 rfl,
   (started_set_guard { started := false, inFlight := 1 }).2 rfl⟩

theorem handle_absence_idle (st : ServerState) (sn : String) (now : Nat) (d : DataField)
    (hidle : sn ∉ st.startedStreams)
    (habs : indicatesAbsence st.registry.dronesConfig sn d = true) :
    handleMessage st sn now d =
      { state := { st with droneLastMessageTime := mapSet st.droneLastMessageTime sn now }
        invokedStart := false
        statusUpdates := [] } := by
  cases d with
  | missing => rfl
  | obj present =>
    cases hcam : getDroneFirstCamera st.registry.dronesConfig sn with
    | some cam =>
      have hnp : cam ∉ present := by
        simp only [indicatesAbsence, hcam] at habs
        simpa using habs
      simp only [handleMessage, hcam, if_neg hnp]
      exact stopBranch_not_started _ _ hidle
    | none =>
      simp only [handleMessage, hcam]
      exact stopBranch_not_started _ _ hidle

/-- C5: for a device with no started stream, any sequence of telemetry
messages that all indicate camera absence is a no-op towards the outside:
no `startStream` invocation (hence no stream-gateway call) and no registry
status update is ever issued, and the `startedStreams` set — in particular
the device's IDLE status — is unchanged. -/
theorem idle_absence_noop (sn : String) (msgs : List (Nat × DataField)) :
    ∀ (st : ServerState), sn ∉ st.startedStreams →
      (∀ m ∈ msgs, indicatesAbsence st.registry.dronesConfig sn m.2 = true) →
      (runMessages sn st msgs).2.1 = false ∧
      (runMessages sn st msgs).2.2 = [] ∧
      (runMessages sn st msgs).1.startedStreams = st.startedStreams := by
  induction msgs with
  | nil =>
    intro st _ _
    exact ⟨rfl, rfl, rfl⟩
  | cons m rest ih =>
    intro st hidle habs
    obtain ⟨now, d⟩ := m
    have h1 := handle_absence_idle st sn now d hidle (habs (now, d) (List.mem_cons_self _ _))
    have hrest : ∀ x ∈ rest,
        indicatesAbsence st.registry.dronesConfig sn x.2 = true :=
      fun x hx => habs x (List.mem_cons_of_mem _ hx)
    have hih := ih { st with droneLastMessageTime := mapSet st.droneLastMessageTime sn now }
      hidle hrest
    simp only [runMessages, h1]
    exact ⟨by simp [hih.1], by simp [hih.2.1], by simp [hih.2.2]⟩

theorem idle_absence_noop_witness :
    (runMessages "BC001" stIdle [(3, DataField.obj []), (9, DataField.obj ["camB"])]).2.1
        = false ∧
    (runMessages "BC001" stIdle [(3, DataField.obj []), (9, DataField.obj ["camB"])]).2.2
        = [] ∧
    (runMessages "BC001" stIdle
        [(3, DataField.obj []), (9, DataField.obj ["camB"])]).1.startedStreams
      = stIdle.startedStreams :=
  idle_absence_noop "BC001" [(3, DataField.obj []), (9, DataField.obj ["camB"])] stIdle
    (by decide) (by decide)

theorem getDroneFirstCamera_of_no_cameras (cfg : List Drone) (sn : String) (drone : Drone)
    (hfind : cfg.find? (fun d => d.sn == sn) = some drone)
    (hcam : drone.cameras = []) :
    getDroneFirstCamera cfg sn = none := by
  simp [getDroneFirstCamera, hfind, hcam]

/-- C10: a device whose configured camera list is empty can never start a
stream: every telemetry message follows the camera-absent path (the
first-camera lookup yields `null`, so `startStream` is never invoked by
the handler), and even a direct `startStream` invocation returns at the
`if (!cameraId)` guard without ever calling the streaming gateway. -/
theorem no_camera_no_start (st : ServerState) (sn : String) (drone : Drone)
    (hfind : st.registry.dronesConfig.find? (fun d => d.sn == sn) = some drone)
    (hcam : drone.cameras = []) :
    (∀ (now : Nat) (d : DataField), (handleMessage st sn now d).invokedStart = false) ∧
    (∀ (env : StartEnv) (now : Nat), (startStream st sn env now).gatewayCalled = false) := by
  have h0 := getDroneFirstCamera_of_no_cameras _ _ _ hfind hcam
  constructor
  · intro now d
    cases d with
    | missing => rfl
    | obj present =>
      simp only [handleMessage, h0]
      exact stopBranch_invokedStart _ _
  · intro env now
    by_cases hs : sn ∈ st.startedStreams
    · simp [startStream, hs]
    · cases htok : (getAcessToken st.cachedToken tokenExpiry now env.tokenResp).token with
      | none => simp [startStream, hs, htok]
      | some tk =>
        simp [startStream, hs, htok, hfind, startWithDrone, hcam]

theorem no_camera_no_start_witness :
    (handleMessage stNoCam "BC002" 5 (DataField.obj ["camA"])).invokedStart = false ∧
    (startStream stNoCam "BC002" envAllFail 5).gatewayCalled = false :=
  ⟨(no_camera_no_start stNoCam "BC002" sampleDroneNoCam rfl rfl).1 5 (DataField.obj ["camA"]),
   (no_camera_no_start stNoCam "BC002" sampleDroneNoCam rfl rfl).2 envAllFail 5⟩

/-- C8: the fallback fetch for a serial missing from the cache makes at
most 3 remote attempts, sleeping 1000 ms then 2000 ms between them
(linearly increasing); if all 3 fail, `startStream` marks the registry
disconnected and abandons the attempt with the not-found outcome — no
gateway call, no status update, `startedStreams` unchanged, no exception. -/
theorem fallback_fetch_bounded :
    (∀ (resps : Nat → Option DroneRecord), (fallbackFetch resps).attempts ≤ 3) ∧
    (∀ (st : ServerState) (sn : String) (env : StartEnv) (now : Nat) (t : String),
      sn ∉ st.startedStreams →
      st.cachedToken = some t → t ≠ "" →
      st.registry.dronesConfig.find? (fun d => d.sn == sn) = none →
      env.fetchResps 0 = none → env.fetchResps 1 = none → env.fetchResps 2 = none →
      (startStream st sn env now).fetchAttempts = 3 ∧
      (startStream st sn env now).fetchDelays = [1000, 2000] ∧
      (startStream st sn env now).state.registry.databaseConnected = false ∧
      (startStream st sn env now).outcome = StartOutcome.notFound ∧
      (startStream st sn env now).gatewayCalled = false ∧
      (startStream st sn env now).statusUpdates = [] ∧
      (startStream st sn env now).state.startedStreams = st.startedStreams) := by
  constructor
  · intro resps
    cases h0 : resps 0 <;> cases h1 : resps 1 <;> cases h2 : resps 2 <;>
      simp [fallbackFetch, h0, h1, h2]
  · intro st sn env now t hs hc ht hfind h0 h1 h2
    have htok : getAcessToken st.cachedToken tokenExpiry now env.tokenResp =
        { token := some t, newCache := some t, loginIssued := false } := by
      rw [hc]
      exact getAcessToken_cached t ht now env.tokenResp
    have hfr : fallbackFetch env.fetchResps =
        { drone := none, attempts := 3, delays := [1000, 2000]
          markedDisconnected := true } := by
      simp [fallbackFetch, h0, h1, h2]
    simp [startStream, hs, htok, hfind, hfr]

theorem fallback_fetch_bounded_witness :
    (startStream stNoCam "ZZZ" envAllFail 7).fetchAttempts = 3 ∧
    (startStream stNoCam "ZZZ" envAllFail 7).fetchDelays = [1000, 2000] ∧
    (startStream stNoCam "ZZZ" envAllFail 7).state.registry.databaseConnected = false ∧
    (startStream stNoCam "ZZZ" envAllFail 7).outcome = StartOutcome.notFound ∧
    (startStream stNoCam "ZZZ" envAllFail 7).gatewayCalled = false ∧
    (startStream stNoCam "ZZZ" envAllFail 7).statusUpdates = [] ∧
    (startStream stNoCam "ZZZ" envAllFail 7).state.startedStreams = stNoCam.startedStreams :=
  fallback_fetch_bounded.2 stNoCam "ZZZ" envAllFail 7 "tok" (by decide) rfl (by decide)
    rfl rfl rfl rfl

theorem schedule_step (a t0 P : Nat) (hP : 0 < P) (h : t0 ≤ a) :
    ∃ k, a < t0 + k * P ∧ t0 + k * P ≤ a + P := by
  refine ⟨(a - t0) / P + 1, ?_, ?_⟩
  · have hmlt : (a - t0) % P < P := Nat.mod_lt _ hP
    have h2 : a - t0 < ((a - t0) / P + 1) * P :=
      calc a - t0 = P * ((a - t0) / P) + (a - t0) % P := (Nat.div_add_mod _ _).symm
      _ < P * ((a - t0) / P) + P := Nat.add_lt_add_left hmlt _
      _ = ((a - t0) / P + 1) * P := by ring
    calc a ≤ (a - t0) + t0 := by omega
    _ < ((a - t0) / P + 1) * P + t0 := Nat.add_lt_add_right h2 t0
    _ = t0 + ((a - t0) / P + 1) * P := Nat.add_comm _ _
  · have h1 : (a - t0) / P * P ≤ a - t0 := Nat.div_mul_le_self _ _
    have h3 : ((a - t0) / P + 1) * P = (a - t0) / P * P + P := Nat.succ_mul _ _
    have h5 : t0 + (a - t0) / P * P ≤ t0 + (a - t0) := Nat.add_le_add_left h1 t0
    have h6 : t0 + (a - t0) = a := by omega
    calc t0 + ((a - t0) / P + 1) * P = t0 + ((a - t0) / P * P + P) := by rw [h3]
    _ = t0 + (a - t0) / P * P + P := by rw [Nat.add_assoc]
    _ ≤ t0 + (a - t0) + P := Nat.add_le_add_right h5 P
    _ = a + P := by rw [h6]

/-- C7: for a STREAMING device (`sn ∈ startedStreams`, well-formed state)
with last telemetry at time `L`: any sweep strictly after the timeout
elapses issues exactly one `streamIsOn=false` report for it, removes it
from `startedStreams`, and deletes its `lastSeen` entry, so any later
sweep (with no telemetry in between) reports nothing for it; the next
telemetry message re-establishes the `lastSeen` entry.  A sweep at or
before `L + timeout` issues no report and changes nothing for the device.
For any sweep schedule of period `P` started by `t0 ≤ L + timeout`, the
single report lands at a sweep at most one period after the timeout
elapses. -/
theorem watchdog_exactly_one_stop (st : ServerState) (sn : String) (L : Nat)
    (hK : (st.droneLastMessageTime.map Prod.fst).Nodup)
    (hS : st.startedStreams.Nodup)
    (hL : mapGet st.droneLastMessageTime sn = some L)
    (hMem : sn ∈ st.startedStreams) :
    (∀ now, L + INACTIVITY_TIMEOUT_MS < now →
      countFor sn (watchdogSweep now st).2 = 1 ∧
      sn ∉ (watchdogSweep now st).1.startedStreams ∧
      mapGet (watchdogSweep now st).1.droneLastMessageTime sn = none ∧
      (∀ later, countFor sn (watchdogSweep later (watchdogSweep now st).1).2 = 0) ∧
      (∀ (t : Nat) (d : DataField),
        mapGet (handleMessage (watchdogSweep now st).1 sn t d).state.droneLastMessageTime sn
          = some t)) ∧
    (∀ now, now ≤ L + INACTIVITY_TIMEOUT_MS →
      countFor sn (watchdogSweep now st).2 = 0 ∧
      sn ∈ (watchdogSweep now st).1.startedStreams ∧
      mapGet (watchdogSweep now st).1.droneLastMessageTime sn = some L) ∧
    (∀ t0 P : Nat, 0 < P → t0 ≤ L + INACTIVITY_TIMEOUT_MS →
      ∃ k, L + INACTIVITY_TIMEOUT_MS < t0 + k * P ∧
           t0 + k * P ≤ L + INACTIVITY_TIMEOUT_MS + P ∧
           countFor sn (watchdogSweep (t0 + k * P) st).2 = 1) := by
  refine ⟨?_, ?_, ?_⟩
  · intro now hnow
    obtain ⟨f1, f2, f3⟩ := watchdog_fire st sn L now hK hS hL hMem hnow
    refine ⟨f1, f2, f3, ?_, ?_⟩
    · intro later
      have hne := mapGet_none_not_mem _ _ f3
      have hvac : ∀ e ∈ (watchdogSweep now st).1.droneLastMessageTime,
          e.1 = sn → later ≤ e.2 + INACTIVITY_TIMEOUT_MS :=
        fun e he hesn => absurd hesn (hne e he)
      exact (sweep_preserve later sn (watchdogSweep now st).1.droneLastMessageTime
        (watchdogSweep now st).1 [] hvac).1
    · intro t d
      rw [handle_lastSeen]
      exact mapGet_mapSet_self _ _ _
  · intro now hnow
    have hH : ∀ e ∈ st.droneLastMessageTime, e.1 = sn →
        now ≤ e.2 + INACTIVITY_TIMEOUT_MS := by
      intro e he hesn
      have hv : mapGet st.droneLastMessageTime sn = some e.2 := by
        have hmm : (sn, e.2) ∈ st.droneLastMessageTime := by
          rw [← hesn]
          simpa using he
        exact mapGet_eq_value_of_nodup _ _ _ hK hmm
      have : L = e.2 := Option.some.inj (hL.symm.trans hv)
      omega
    obtain ⟨p1, p2, p3⟩ :=
      sweep_preserve now sn st.droneLastMessageTime st [] hH
    exact ⟨p1, p2.mpr hMem, p3.trans hL⟩
  · intro t0 P hP ht0
    obtain ⟨k, hk1, hk2⟩ := schedule_step (L + INACTIVITY_TIMEOUT_MS) t0 P hP ht0
    exact ⟨k, hk1, hk2, (watchdog_fire st sn L _ hK hS hL hMem hk1).1⟩

theorem watchdog_exactly_one_stop_witness :
    countFor "BC001" (watchdogSweep 25001 stStreaming).2 = 1 ∧
    countFor "BC001" (watchdogSweep 25000 stStreaming).2 = 0 :=
  ⟨((watchdog_exactly_one_stop stStreaming "BC001" 0 (by decide) (by decide) (by decide)
      (by decide)).1 25001 (by decide)).1,
   ((watchdog_exactly_one_stop stStreaming "BC001" 0 (by decide) (by decide) (by decide)
      (by decide)).2.1 25000 (by decide)).1⟩
